import Mathlib

/-!
Shallow embedding of the VeriDoc forensic-pipeline core:
the pipeline routers (backend/pipelines.py and
backend/services/pipeline_orchestrator.py), the structural, visual
and cryptographic analyzers, and the score-fusion stage of
backend/main.py.  Scores are modelled as rationals, machine dicts as
structures, and every external effect (file reads, model calls,
artifact writes) as an explicit input describing its outcome.
-/

namespace VeriDoc

/-- PipelineType enumeration (pipeline_orchestrator.py lines 15-18). -/
inductive PipelineType where
  | structural
  | visual
  | cryptographic
deriving DecidableEq, Repr

/-- ASCII lowercasing of one character, the fragment of Python
str.lower the routers rely on. -/
def lowerChar (c : Char) : Char :=
  if 'A' ≤ c ∧ c ≤ 'Z' then Char.ofNat (c.toNat + 32) else c

/-- A string lowercased to its character list. -/
def lowerData (s : String) : List Char := s.data.map lowerChar

/-- Python str.split on a single separator character: splitting an
empty string yields one empty piece, and every separator occurrence
starts a new piece. -/
def splitOnChar (sep : Char) : List Char → List Char → List (List Char)
  | [], acc => [acc.reverse]
  | c :: rest, acc =>
      if c = sep then acc.reverse :: splitOnChar sep rest []
      else splitOnChar sep rest (c :: acc)

/-- Whether pat is a prefix of l. -/
def isPrefixOfChars : List Char → List Char → Bool
  | [], _ => true
  | _ :: _, [] => false
  | p :: ps, c :: cs => p == c && isPrefixOfChars ps cs

/-- Python substring membership: pat occurs somewhere in l. -/
def containsChars : List Char → List Char → Bool
  | [], pat => isPrefixOfChars pat []
  | l@(_ :: rest), pat => isPrefixOfChars pat l || containsChars rest pat

/-- Python substring membership on strings. -/
def containsSub (s pat : String) : Bool := containsChars s.data pat.data

/-- Raster image extensions routed to the visual pipeline
(pipeline_orchestrator.py line 580, pipelines.py line 502). -/
def imageExts : List (List Char) :=
  ["jpg".data, "jpeg".data, "png".data, "tiff".data, "bmp".data, "webp".data]

/-- Python idiom in both routers: the last dot-separated component of
the lowercased filename. -/
def lastExt (filename : String) : List Char :=
  (splitOnChar '.' (lowerData filename) []).getLastD []

/-- What opening the file with PdfFileReader observes: whether the open
and parse succeed at all, and how many embedded signature fields the
reader reports.  This is a pure description of the file content. -/
structure PdfContent where
  openOk : Bool
  sigCount : Nat
deriving DecidableEq, Repr

/-- A file as the routers see it: its name and its content. -/
structure FileModel where
  name : String
  content : PdfContent
deriving DecidableEq, Repr

namespace PipelineOrchestrator

/-- determine_pipeline from backend/services/pipeline_orchestrator.py
(lines 558-584): PDFs are routed by opening the file and counting
embedded signature fields; any failure to open falls back to
Structural; raster extensions go to Visual; everything else to
Structural. -/
def determine_pipeline (f : FileModel) : PipelineType :=
  let ext := lastExt f.name
  if ext = "pdf".data then
    if f.content.openOk && decide (0 < f.content.sigCount) then
      PipelineType.cryptographic
    else
      PipelineType.structural
  else if ext ∈ imageExts then PipelineType.visual
  else PipelineType.structural

end PipelineOrchestrator

namespace Pipelines

/-- determine_pipeline from backend/pipelines.py (lines 488-506): PDFs
are routed by the filename substring "signed"; the content is never
opened.  Raster extensions go to Visual, everything else to
Structural. -/
def determine_pipeline (f : FileModel) : PipelineType :=
  let fnLower := lowerData f.name
  let ext := lastExt f.name
  if ext = "pdf".data then
    if containsChars fnLower "signed".data then PipelineType.cryptographic
    else PipelineType.structural
  else if ext ∈ imageExts then PipelineType.visual
  else PipelineType.structural

end Pipelines

/-! ### Cryptographic analyzer (pipeline_orchestrator.py lines 314-413) -/

/-- Validation outcome for one embedded signature, as consumed by the
scoring loop: valError models async_validate_pdf_signature raising for
that signature (caught at the per-signature boundary). -/
structure SigInput where
  valError : Bool
  intact : Bool
  trusted : Bool
  revoked : Bool
deriving DecidableEq, Repr

/-- Score contribution of one signature (lines 383-391 of
pipeline_orchestrator.py): a per-signature validation error contributes
nothing; otherwise the elif chain fires at most one of the three
deltas. -/
def sigDelta (s : SigInput) : ℚ :=
  if s.valError then 0
  else if !s.intact then 1
  else if s.revoked then 1
  else if !s.trusted then 3/10
  else 0

/-- Input of analyze_cryptographic: whether the file opens and parses
(open plus PdfFileReader), and the list of embedded signatures with
their validation outcomes. -/
structure CryptoInput where
  readable : Bool
  sigs : List SigInput
deriving DecidableEq, Repr

/-- The parts of the analyze_cryptographic result dict the claims are
about: the score, the top-level error field set by the outer except
handler, and the signature_count detail. -/
structure CryptoReport where
  score : ℚ
  error : Option String
  signatureCount : Option Nat
deriving DecidableEq, Repr

/-- analyze_cryptographic from pipeline_orchestrator.py (lines
314-413): an unreadable file is caught by the outer except and
reported through the error field; zero signatures return a neutral
score-0 report; otherwise each signature contributes its delta and
the sum is capped at 1. -/
def analyze_cryptographic (inp : CryptoInput) : CryptoReport :=
  if inp.readable then
    if inp.sigs.isEmpty then
      { score := 0, error := none, signatureCount := some 0 }
    else
      { score := min ((inp.sigs.map sigDelta).sum) 1
        error := none
        signatureCount := some inp.sigs.length }
  else
    { score := 0, error := some "Cryptographic Analysis Failed", signatureCount := none }

/-- Per-signature scoring as the specification words it: broken and
revoked each add 1.0 independently, and an untrusted root with no
break or revocation adds 0.3. -/
def claimSigDelta (s : SigInput) : ℚ :=
  (if !s.intact then 1 else 0) + (if s.revoked then 1 else 0) +
    (if !s.trusted && s.intact && !s.revoked then 3/10 else 0)

/-! ### Structural analyzer (pipeline_orchestrator.py lines 163-312) -/

/-- Metadata as the structural analyzer consumes it.  producer is the
defaulted lookup of the Producer key: the empty string models a
missing key (Python .get with default). -/
structure MetaInfo where
  producer : String
deriving DecidableEq, Repr

/-- One embedded image as the deep-inspection loop sees it: the score
of the recursive visual sub-report and whether that sub-report carries
a dict semantic_segmentation entry whose is_tampered value is truthy. -/
structure EmbImg where
  visScore : ℚ
  segTampered : Bool
deriving DecidableEq, Repr

/-- What the root-object inspection observes when it succeeds: whether
the root dictionary has an EmbeddedFiles entry and whether it has a JS
or JavaScript entry. -/
structure RootInfo where
  embeddedFiles : Bool
  hasJS : Bool
deriving DecidableEq, Repr

/-- Outcome of the PdfReader parsing stage.  raise: constructing the
reader or reading its metadata raises, landing in the outer except
handler.  ok: parsing succeeds with the given metadata (none when the
document has no metadata), the embedded images found across all
pages, an optional count after which the deep-inspection loop raises
(caught as a non-fatal warning), and the root-object observation
(none when the root inspection raises or the trailer has no Root). -/
inductive ParseOutcome where
  | raise
  | ok (meta : Option MetaInfo) (embImgs : List EmbImg)
      (failAfter : Option Nat) (root : Option RootInfo)
deriving DecidableEq, Repr

/-- Input of analyze_structural: whether the raw-byte open and read
succeed, the count of EOF markers, the count of xref keywords, and the
parsing-stage outcome. -/
structure StructuralInput where
  readable : Bool
  eofCount : Nat
  xrefCount : Nat
  parse : ParseOutcome
deriving DecidableEq, Repr

/-- The parts of the analyze_structural result dict the claims are
about. -/
structure StructuralReport where
  score : ℚ
  flags : List String
  error : Option String
  analyzedImages : List EmbImg
deriving DecidableEq, Repr

/-- Score contribution of the EOF-marker byte scan (lines 190-195):
more than one marker adds 0.15 per extra marker, zero markers force
the score to 1.0. -/
def eofScore (eofCount : Nat) : ℚ :=
  if 1 < eofCount then (3/20) * ((eofCount : ℚ) - 1)
  else if eofCount = 0 then 1
  else 0

/-- Flags raised by the EOF-marker byte scan. -/
def eofFlags (eofCount : Nat) : List String :=
  if 1 < eofCount then ["Detected Incremental Updates (File modified after creation)"]
  else if eofCount = 0 then ["Malformed PDF: No %%EOF marker found"]
  else []

/-- Score contribution of the metadata block (lines 203-217): absent
metadata adds 0.1, an empty producer adds 0.2, a blacklisted producer
substring adds 0.3. -/
def metaDelta : Option MetaInfo → ℚ
  | none => 1/10
  | some m =>
      let p := lowerData m.producer
      if p = [] then 1/5
      else if containsChars p "phantom".data || containsChars p "gpl output".data then 3/10
      else 0

/-- Flags raised by the metadata block. -/
def metaFlags : Option MetaInfo → List String
  | none => ["No Metadata found"]
  | some m =>
      let p := lowerData m.producer
      if p = [] then ["Missing Producer Metadata"]
      else if containsChars p "phantom".data || containsChars p "gpl output".data then
        ["Suspicious Producer detected"]
      else []

/-- Score contribution of one analyzed embedded image (lines 260-269):
a sub-report score above 0.4 adds 0.4, plus 0.3 more when its
segmentation check independently flagged tampering. -/
def imgDelta (i : EmbImg) : ℚ :=
  if 2/5 < i.visScore then 2/5 + (if i.segTampered then 3/10 else 0)
  else 0

/-- Flags raised for one analyzed embedded image. -/
def imgFlags (i : EmbImg) : List String :=
  if 2/5 < i.visScore then
    "Embedded Image: Potential Tampering Detected" ::
      (if i.segTampered then ["SegFormer found tampering in embedded image"] else [])
  else []

/-- Score contribution of the root-object inspection (lines 283-302):
an EmbeddedFiles entry adds 0.3, a JS or JavaScript entry adds 0.5; a
raised inner exception contributes nothing. -/
def rootDelta : Option RootInfo → ℚ
  | none => 0
  | some r => (if r.embeddedFiles then 3/10 else 0) + (if r.hasJS then 1/2 else 0)

/-- Flags raised by the root-object inspection. -/
def rootFlags : Option RootInfo → List String
  | none => []
  | some r =>
      (if r.embeddedFiles then ["Contains Embedded Files (Potential Payload)"] else []) ++
        (if r.hasJS then ["Contains Embeded JavaScript (High Risk)"] else [])

/-- The embedded images the loop fully processes: the first 3 found,
truncated further when the inner exception fires after failAfter of
them. -/
def processedImgs (embImgs : List EmbImg) : Option Nat → List EmbImg
  | none => embImgs.take 3
  | some k => (embImgs.take 3).take k

/-- analyze_structural from pipeline_orchestrator.py (lines 163-312).
An unreadable file is caught by the outer except handler and reported
through the error field.  A parse failure after the byte scan keeps
the byte-scan score (the final min-clamp on line 307 sits inside the
try block, so it is skipped on this path).  Otherwise the metadata,
embedded-image and root-object contributions accumulate and the score
is clamped to at most 1. -/
def analyze_structural (inp : StructuralInput) : StructuralReport :=
  if inp.readable then
    let s1 := eofScore inp.eofCount
    let f1 := eofFlags inp.eofCount
    match inp.parse with
    | ParseOutcome.raise =>
        { score := s1, flags := f1, error := some "Analysis Failed", analyzedImages := [] }
    | ParseOutcome.ok meta embImgs failAfter root =>
        let imgs := processedImgs embImgs failAfter
        let s := s1 + metaDelta meta + (imgs.map imgDelta).sum + rootDelta root
        { score := min s 1
          flags := f1 ++ metaFlags meta ++ (imgs.map imgFlags).flatten ++ rootFlags root
          error := none
          analyzedImages := imgs }
  else
    { score := 0, flags := [], error := some "Analysis Failed", analyzedImages := [] }

/-! ### Visual analyzer (pipeline_orchestrator.py lines 415-556) -/

/-- Outcome of one of the five gathered tasks: either the dispatched
coroutine raised (asyncio.gather with return_exceptions collects the
exception) or it returned a result value. -/
inductive TaskOutcome (α : Type) where
  | exn (msg : String)
  | res (r : α)
deriving DecidableEq, Repr

/-- Result dict of perform_ela: ok is the status key being success;
the error dict produced by its internal except handler is ok false. -/
structure ElaRes where
  ok : Bool
  meanDiff : ℚ
  maxDiff : ℚ
deriving DecidableEq, Repr

/-- Result dict of analyze_quantization. -/
structure QuantRes where
  ok : Bool
  suspicious : Bool
deriving DecidableEq, Repr

/-- Result dict of run_tamper_detection: isTampered is the truthiness
of the is_tampered key. -/
structure SegRes where
  isTampered : Bool
  conf : ℚ
deriving DecidableEq, Repr

/-- Result dict of perform_noise_analysis (informational only). -/
structure NoiseRes where
  ok : Bool
deriving DecidableEq, Repr

/-- Result dict of TruForEngine.analyze plus the outcome of the
artifact write: hasHeatmap is the heatmap key being non-None, saveOk
whether persisting the overlay succeeds, trustScore the optional
trust_score key (absent defaults to 1.0 in the score check). -/
structure TruforRes where
  hasHeatmap : Bool
  saveOk : Bool
  trustScore : Option ℚ
deriving DecidableEq, Repr

/-- Input of analyze_visual: the outcome of each of the five
concurrently dispatched checks. -/
structure VisualInput where
  ela : TaskOutcome ElaRes
  quant : TaskOutcome QuantRes
  seg : TaskOutcome SegRes
  noise : TaskOutcome NoiseRes
  trufor : TaskOutcome TruforRes
deriving DecidableEq, Repr

/-- The trufor entry of the report details after aggregation: the
exception branch stores an error dict; otherwise the raw heatmap
array stays in the payload unless the overlay was persisted, in which
case the path is recorded and the raw arrays are deleted. -/
structure TruforDetail where
  errorTag : Bool
  hasRaw : Bool
  heatmapPath : Bool
  trustScore : Option ℚ
deriving DecidableEq, Repr

/-- ELA score contribution (lines 471-479): only a success result
with mean difference above 15 adds 0.4. -/
def elaDelta : TaskOutcome ElaRes → ℚ
  | TaskOutcome.exn _ => 0
  | TaskOutcome.res r => if r.ok ∧ 15 < r.meanDiff then 2/5 else 0

/-- Quantization score contribution (lines 481-488). -/
def quantDelta : TaskOutcome QuantRes → ℚ
  | TaskOutcome.exn _ => 0
  | TaskOutcome.res r => if r.ok ∧ r.suspicious then 3/10 else 0

/-- SegFormer score contribution (lines 490-498). -/
def segDelta : TaskOutcome SegRes → ℚ
  | TaskOutcome.exn _ => 0
  | TaskOutcome.res r => if r.isTampered then 3/5 else 0

/-- TruFor score contribution (lines 548-551): the trust_score key
defaults to 1.0 and a value below 0.5 adds 0.8. -/
def truforDelta : TaskOutcome TruforRes → ℚ
  | TaskOutcome.exn _ => 0
  | TaskOutcome.res r => if r.trustScore.getD 1 < 1/2 then 4/5 else 0

/-- Aggregation of the trufor entry (lines 506-546): the del of the
raw arrays and the recording of heatmap_path sit inside the same try
as the artifact write, so a failed write leaves the raw arrays in the
payload and no path. -/
def truforDetailOf : TaskOutcome TruforRes → TruforDetail
  | TaskOutcome.exn _ =>
      { errorTag := true, hasRaw := false, heatmapPath := false, trustScore := none }
  | TaskOutcome.res r =>
      { errorTag := false
        hasRaw := r.hasHeatmap && !r.saveOk
        heatmapPath := r.hasHeatmap && r.saveOk
        trustScore := r.trustScore }

/-- Whether the ela details entry is failure-tagged: the exception
branch stores a status-error dict, and an internal perform_ela
failure already is one. -/
def elaFailed : TaskOutcome ElaRes → Bool
  | TaskOutcome.exn _ => true
  | TaskOutcome.res r => !r.ok

/-- Whether the quantization details entry is failure-tagged. -/
def quantFailed : TaskOutcome QuantRes → Bool
  | TaskOutcome.exn _ => true
  | TaskOutcome.res r => !r.ok

/-- Whether the semantic_segmentation details entry is failure-tagged
(the exception branch stores a Model Failed string). -/
def segFailed : TaskOutcome SegRes → Bool
  | TaskOutcome.exn _ => true
  | TaskOutcome.res _ => false

/-- Whether the noise_analysis details entry is failure-tagged. -/
def noiseFailed : TaskOutcome NoiseRes → Bool
  | TaskOutcome.exn _ => true
  | TaskOutcome.res r => !r.ok

/-- Whether the trufor details entry is failure-tagged. -/
def truforFailed : TaskOutcome TruforRes → Bool
  | TaskOutcome.exn _ => true
  | TaskOutcome.res _ => false

/-- The parts of the analyze_visual result dict the claims are about:
the clamped score, one details entry per check, and the flags. -/
structure VisualReport where
  score : ℚ
  ela : TaskOutcome ElaRes
  quantization : TaskOutcome QuantRes
  semanticSegmentation : TaskOutcome SegRes
  noiseAnalysis : TaskOutcome NoiseRes
  trufor : TruforDetail
  flags : List String
deriving DecidableEq, Repr

/-- Flags appended during the sequential aggregation, in program
order: ela, quantization, segformer, trufor. -/
def visualFlags (inp : VisualInput) : List String :=
  (match inp.ela with
   | TaskOutcome.exn _ => ["ELA Failed"]
   | TaskOutcome.res r =>
       if r.ok ∧ 15 < r.meanDiff then ["High ELA Response (Potential Manipulation)"]
       else []) ++
  (match inp.quant with
   | TaskOutcome.exn _ => []
   | TaskOutcome.res r =>
       if r.ok ∧ r.suspicious then ["Suspicious Histogram (Potential Double Quantization)"]
       else []) ++
  (match inp.seg with
   | TaskOutcome.exn _ => []
   | TaskOutcome.res r =>
       if r.isTampered then ["Deep Learning Detection (SegFormer): Tampering Detected"]
       else []) ++
  (match inp.trufor with
   | TaskOutcome.exn _ => []
   | TaskOutcome.res r =>
       if r.trustScore.getD 1 < 1/2 then ["TruFor Detected Anomaly"] else [])

/-- analyze_visual from pipeline_orchestrator.py (lines 415-556): the
five checks are dispatched together, each failure is collected as its
own exception value, the five details entries are aggregated
check-by-check, and the sum of the triggered deltas is clamped to at
most 1. -/
def analyze_visual (inp : VisualInput) : VisualReport :=
  { score := min (elaDelta inp.ela + quantDelta inp.quant + segDelta inp.seg +
      truforDelta inp.trufor) 1
    ela := inp.ela
    quantization := inp.quant
    semanticSegmentation := inp.seg
    noiseAnalysis := inp.noise
    trufor := truforDetailOf inp.trufor
    flags := visualFlags inp }

/-! ### Score fusion (backend/main.py lines 230-315) -/

/-- Python round applied to an exact rational: round half to even. -/
def pyRound (q : ℚ) : ℤ :=
  let n : ℤ := ⌊q⌋
  let frac : ℚ := q - (n : ℚ)
  if frac < 1/2 then n
  else if 1/2 < frac then n + 1
  else if n % 2 = 0 then n else n + 1

/-- The slice of one visual-report details dict that
extract_visual_scores in main.py reads: segConf is the
confidence_score of the semantic_segmentation entry when that entry
is a dict (the key defaulting to 0), none when it is not a dict; and
elaMax is the defaulted max_difference of the ela entry. -/
structure VisDetails where
  segConf : Option ℚ
  elaMax : ℚ
deriving DecidableEq, Repr

/-- extract_visual_scores from main.py (lines 249-261): the
segmentation authenticity and the ELA-statistics authenticity of one
image, each on the 0-100 scale. -/
def extract_visual_scores (d : VisDetails) : ℚ × ℚ :=
  (match d.segConf with
   | some c => max 0 (100 - c * 100)
   | none => 100,
   max 0 (100 - d.elaMax * (3/2)))

/-- The slice of a pipeline report that the fusion stage of
analyze_document reads: the risk score, the root details (used when
the pipeline was Visual) and the analyzed_images sub-entries (used
when the pipeline was Structural). -/
structure FusionReport where
  score : ℚ
  rootDetails : VisDetails
  analyzedImages : List VisDetails
deriving DecidableEq, Repr

/-- The segmentation term, statistics term and has-visual-components
bit of main.py lines 240-284: a Visual pipeline takes the root image
values; a report with analyzed images takes the running minimum of
each value across the images, starting at 100; otherwise both terms
stay 100 and no visual component exists. -/
def fusionTerms (pt : PipelineType) (rep : FusionReport) : ℚ × ℚ × Bool :=
  if pt = PipelineType.visual then
    let sv := extract_visual_scores rep.rootDetails
    (sv.1, sv.2, true)
  else
    match rep.analyzedImages with
    | [] => (100, 100, false)
    | imgs =>
        let mins := imgs.foldl
          (fun acc d =>
            let sv := extract_visual_scores d
            (if sv.1 < acc.1 then sv.1 else acc.1,
             if sv.2 < acc.2 then sv.2 else acc.2))
          ((100 : ℚ), (100 : ℚ))
        (mins.1, mins.2, true)

/-- The metadata authenticity backup term of main.py lines 287-288. -/
def metadataAuth (riskScore : ℚ) : ℚ :=
  max 0 (100 - riskScore * 100)

/-- The hybrid scoring block of analyze_document (main.py lines
230-310): the final rounded trust score. -/
def fuse (pt : PipelineType) (aiScore : ℚ) (rep : FusionReport) : ℤ :=
  let t := fusionTerms pt rep
  if t.2.2 then
    pyRound (aiScore * (2/5) + t.1 * (2/5) + t.2.1 * (1/5))
  else
    pyRound (aiScore * (3/5) + metadataAuth rep.score * (2/5))

/-- The per-image segmentation-authenticity value, as the claims
speak of it. -/
def perImageSeg (d : VisDetails) : ℚ := (extract_visual_scores d).1

/-- The per-image statistical-authenticity value. -/
def perImageStats (d : VisDetails) : ℚ := (extract_visual_scores d).2

/-! ### Helper lemmas -/

lemma sigDelta_nonneg (s : SigInput) : 0 ≤ sigDelta s := by
  rcases s with ⟨e, i, t, r⟩
  cases e <;> cases i <;> cases t <;> cases r <;> norm_num [sigDelta]

lemma sigDelta_rel (s : SigInput) (h : s.valError = false) :
    sigDelta s = claimSigDelta s ∨ (sigDelta s = 1 ∧ sigDelta s ≤ claimSigDelta s) := by
  rcases s with ⟨e, i, t, r⟩
  cases h
  cases i <;> cases t <;> cases r <;> norm_num [sigDelta, claimSigDelta]

lemma sigDeltaSum_nonneg (l : List SigInput) : 0 ≤ (l.map sigDelta).sum := by
  refine List.sum_nonneg ?_
  intro x hx
  obtain ⟨y, _, rfl⟩ := List.mem_map.mp hx
  exact sigDelta_nonneg y

lemma sigDeltaSums_rel (sigs : List SigInput) (hok : ∀ s ∈ sigs, s.valError = false) :
    ((sigs.map sigDelta).sum = (sigs.map claimSigDelta).sum ∨
      1 ≤ (sigs.map sigDelta).sum) ∧
    (sigs.map sigDelta).sum ≤ (sigs.map claimSigDelta).sum := by
  induction sigs with
  | nil => exact ⟨Or.inl rfl, le_refl 0⟩
  | cons s t ih =>
      obtain ⟨iht, ihle⟩ := ih (fun x hx => hok x (List.mem_cons_of_mem s hx))
      have hs := sigDelta_rel s (hok s (List.mem_cons_self s t))
      have hts : 0 ≤ (t.map sigDelta).sum := sigDeltaSum_nonneg t
      have hss : 0 ≤ sigDelta s := sigDelta_nonneg s
      simp only [List.map_cons, List.sum_cons]
      constructor
      · rcases hs with hs | ⟨hs1, _⟩
        · rcases iht with iht | iht
          · exact Or.inl (by rw [hs, iht])
          · exact Or.inr (by linarith)
        · exact Or.inr (by linarith)
      · rcases hs with hs | ⟨_, hs2⟩
        · rw [hs]; linarith
        · linarith

lemma cryptoSums (sigs : List SigInput) (hok : ∀ s ∈ sigs, s.valError = false) :
    min ((sigs.map sigDelta).sum) 1 = min ((sigs.map claimSigDelta).sum) 1 := by
  obtain ⟨hor, hle⟩ := sigDeltaSums_rel sigs hok
  rcases hor with h | h
  · rw [h]
  · rw [min_eq_right h, min_eq_right (le_trans h hle)]

/-! ### C2: content-based routing of PDFs -/

/-- C2: for a pdf-extension file that opens, the orchestrator router
returns Cryptographic exactly when at least one embedded signature
field is present and Structural when none is; and the decision is a
function of the file content alone, unchanged under any renaming that
keeps the pdf extension. -/
theorem C2_router_content_based (f : FileModel)
    (hext : lastExt f.name = "pdf".data) (hopen : f.content.openOk = true) :
    ((0 < f.content.sigCount →
        PipelineOrchestrator.determine_pipeline f = PipelineType.cryptographic) ∧
      (f.content.sigCount = 0 →
        PipelineOrchestrator.determine_pipeline f = PipelineType.structural)) ∧
    (∀ g : FileModel, lastExt g.name = "pdf".data → g.content = f.content →
      PipelineOrchestrator.determine_pipeline g = PipelineOrchestrator.determine_pipeline f) := by
  refine ⟨⟨?_, ?_⟩, ?_⟩
  · intro h
    simp [PipelineOrchestrator.determine_pipeline, hext, hopen, h]
  · intro h
    simp [PipelineOrchestrator.determine_pipeline, hext, hopen, h]
  · intro g hg hc
    simp [PipelineOrchestrator.determine_pipeline, hext, hg, hc]

/-- A signed pdf under a generic, non-suggestive name. -/
def c2File : FileModel := { name := "7f3e_upload.pdf", content := { openOk := true, sigCount := 2 } }

/-- Witness for C2 at a concrete signed pdf with a generic name. -/
theorem C2_router_content_based_witness :
    lastExt c2File.name = "pdf".data ∧ c2File.content.openOk = true ∧
      PipelineOrchestrator.determine_pipeline c2File = PipelineType.cryptographic :=
  ⟨by decide, by decide, (C2_router_content_based c2File (by decide) (by decide)).1.1 (by decide)⟩

/-! ### C10: the two router implementations -/

/-- A pdf whose content carries one signature but whose name lacks the
substring signed. -/
def c10File : FileModel := { name := "contract.pdf", content := { openOk := true, sigCount := 1 } }

/-- C10 counterexample: on a signed pdf named contract.pdf the legacy
router in pipelines.py answers Structural while the orchestrator
router answers Cryptographic, so the two implementations are not
equal. -/
theorem C10_counterexample :
    Pipelines.determine_pipeline c10File ≠ PipelineOrchestrator.determine_pipeline c10File := by
  decide

/-- C10 amended: the two routers agree on every file whose extension
is not pdf; on pdf files they may differ, since pipelines.py decides
by the signed filename substring and the orchestrator by content. -/
theorem C10_routers_agree_off_pdf (f : FileModel) (h : lastExt f.name ≠ "pdf".data) :
    Pipelines.determine_pipeline f = PipelineOrchestrator.determine_pipeline f := by
  simp [Pipelines.determine_pipeline, PipelineOrchestrator.determine_pipeline, h]

/-- Witness for the amended C10 at a concrete image file. -/
theorem C10_routers_agree_off_pdf_witness :
    lastExt "photo.jpg" ≠ "pdf".data ∧
      Pipelines.determine_pipeline { name := "photo.jpg", content := { openOk := false, sigCount := 0 } } =
        PipelineOrchestrator.determine_pipeline { name := "photo.jpg", content := { openOk := false, sigCount := 0 } } :=
  ⟨by decide, C10_routers_agree_off_pdf _ (by decide)⟩

/-! ### C4: cryptographic per-signature scoring -/

/-- A signature whose digest does not verify. -/
def brokenSig : SigInput := { valError := false, intact := false, trusted := true, revoked := false }

/-- An intact, non-revoked signature chaining to an unknown root. -/
def untrustedSig : SigInput := { valError := false, intact := true, trusted := false, revoked := false }

/-- C4: on every signature list that validates without a
per-signature error, the final clamped score of analyze_cryptographic
equals the clamp of the non-exclusive per-signature deltas the
specification describes (broken +1.0, revoked +1.0, untrusted with no
break or revocation +0.3); and a document with one broken and one
untrusted-but-intact signature scores exactly 1. -/
theorem C4_crypto_scoring (sigs : List SigInput)
    (hok : ∀ s ∈ sigs, s.valError = false) :
    (analyze_cryptographic { readable := true, sigs := sigs }).score
        = min ((sigs.map claimSigDelta).sum) 1 ∧
      (analyze_cryptographic { readable := true, sigs := [brokenSig, untrustedSig] }).score = 1 := by
  constructor
  · rcases sigs with _ | ⟨s, t⟩
    · simp [analyze_cryptographic]
    · simpa [analyze_cryptographic] using cryptoSums (s :: t) hok
  · norm_num [analyze_cryptographic, sigDelta, brokenSig, untrustedSig]

/-- Witness for C4 at the broken-plus-untrusted document. -/
theorem C4_crypto_scoring_witness :
    (∀ s ∈ [brokenSig, untrustedSig], s.valError = false) ∧
      (analyze_cryptographic { readable := true, sigs := [brokenSig, untrustedSig] }).score = 1 :=
  ⟨by decide, (C4_crypto_scoring [brokenSig, untrustedSig] (by decide)).2⟩

/-! ### More structural helper lemmas -/

lemma metaDelta_nonneg (m : Option MetaInfo) : 0 ≤ metaDelta m := by
  rcases m with _ | m
  · norm_num [metaDelta]
  · simp only [metaDelta]
    split_ifs <;> norm_num

lemma imgDelta_nonneg (i : EmbImg) : 0 ≤ imgDelta i := by
  simp only [imgDelta]
  split_ifs <;> norm_num

lemma rootDelta_nonneg (r : Option RootInfo) : 0 ≤ rootDelta r := by
  rcases r with _ | r
  · norm_num [rootDelta]
  · simp only [rootDelta]
    split_ifs <;> norm_num

lemma imgDeltaSum_nonneg (l : List EmbImg) : 0 ≤ (l.map imgDelta).sum := by
  refine List.sum_nonneg ?_
  intro x hx
  obtain ⟨y, _, rfl⟩ := List.mem_map.mp hx
  exact imgDelta_nonneg y

/-! ### C3: pipeline-local scores stay inside the unit interval -/

/-- A readable file whose raw bytes contain eight EOF markers but
which pypdf fails to parse: the byte scan adds 0.15 times 7 and the
outer except handler then skips the final clamp. -/
def c3Input : StructuralInput :=
  { readable := true, eofCount := 8, xrefCount := 0, parse := ParseOutcome.raise }

/-- C3 fails on the code: on a readable 8-marker file whose parse
raises, analyze_structural returns score 1.05, outside the unit
interval the claim and the spec invariant require. -/
theorem C3_structural_score_exceeds_one :
    (analyze_structural c3Input).score = 21/20 ∧ ¬ (analyze_structural c3Input).score ≤ 1 := by
  norm_num [analyze_structural, c3Input, eofScore]

/-! ### C7: zero EOF markers force a structural score of 1.0 -/

/-- C7: for every readable input with zero EOF markers the structural
report scores exactly 1 and carries the malformed-PDF flag; the later
additive contributions cannot move the final value. -/
theorem C7_zero_eof_forces_score_one (inp : StructuralInput)
    (hr : inp.readable = true) (h0 : inp.eofCount = 0) :
    (analyze_structural inp).score = 1 ∧
      "Malformed PDF: No %%EOF marker found" ∈ (analyze_structural inp).flags := by
  rcases hp : inp.parse with _ | ⟨meta, embImgs, failAfter, root⟩
  · constructor
    · simp [analyze_structural, hr, hp, eofScore, h0]
    · simp [analyze_structural, hr, hp, eofFlags, h0]
  · have hmin : min (eofScore inp.eofCount + metaDelta meta +
        ((processedImgs embImgs failAfter).map imgDelta).sum + rootDelta root) 1 = 1 := by
      have h1 : eofScore inp.eofCount = 1 := by simp [eofScore, h0]
      have h2 := metaDelta_nonneg meta
      have h3 := imgDeltaSum_nonneg (processedImgs embImgs failAfter)
      have h4 := rootDelta_nonneg root
      exact min_eq_right (by linarith)
    constructor
    · simpa [analyze_structural, hr, hp] using hmin
    · simp [analyze_structural, hr, hp, eofFlags, h0]

/-- A readable zero-marker file that parses with ordinary metadata,
no embedded images and a clean root object. -/
def c7Input : StructuralInput :=
  { readable := true, eofCount := 0, xrefCount := 1
    parse := ParseOutcome.ok (some { producer := "pdfTeX-1.40" }) [] none
      (some { embeddedFiles := false, hasJS := false }) }

/-- Witness for C7 at a concrete zero-marker input. -/
theorem C7_zero_eof_forces_score_one_witness :
    c7Input.readable = true ∧ c7Input.eofCount = 0 ∧
      (analyze_structural c7Input).score = 1 :=
  ⟨by decide, by decide, (C7_zero_eof_forces_score_one c7Input (by decide) (by decide)).1⟩

/-! ### C8: an unreadable primary input -/

/-- An input file whose raw-byte open fails. -/
def c8Structural : StructuralInput :=
  { readable := false, eofCount := 0, xrefCount := 0, parse := ParseOutcome.raise }

/-- An input file the cryptographic analyzer cannot open. -/
def c8Crypto : CryptoInput := { readable := false, sigs := [] }

/-- C8 counterexample: when the input file cannot be read, both
analyzers still return a report object, and that report carries a
top-level error field, contradicting the claim that the failure
propagates before any report is produced. -/
theorem C8_counterexample :
    (analyze_structural c8Structural).error = some "Analysis Failed" ∧
      (analyze_structural c8Structural).score = 0 ∧
      (analyze_cryptographic c8Crypto).error = some "Cryptographic Analysis Failed" ∧
      (analyze_cryptographic c8Crypto).score = 0 := by
  refine ⟨rfl, ?_, rfl, ?_⟩ <;> norm_num [analyze_structural, analyze_cryptographic,
    c8Structural, c8Crypto]

/-- C8 amended: an unreadable primary input is caught by each
analyzer's top-level except handler, which returns a degraded report
with score 0, no flags and the error field set, instead of
propagating the failure. -/
theorem C8_unreadable_error_report (si : StructuralInput) (ci : CryptoInput)
    (h1 : si.readable = false) (h2 : ci.readable = false) :
    (analyze_structural si).error = some "Analysis Failed" ∧
      (analyze_structural si).score = 0 ∧
      (analyze_structural si).flags = [] ∧
      (analyze_cryptographic ci).error = some "Cryptographic Analysis Failed" ∧
      (analyze_cryptographic ci).score = 0 := by
  simp [analyze_structural, analyze_cryptographic, h1, h2]

/-- Witness for the amended C8 at the concrete unreadable inputs. -/
theorem C8_unreadable_error_report_witness :
    c8Structural.readable = false ∧ c8Crypto.readable = false ∧
      (analyze_structural c8Structural).error = some "Analysis Failed" :=
  ⟨by decide, by decide, (C8_unreadable_error_report c8Structural c8Crypto (by decide) (by decide)).1⟩

/-! ### C5: visual pipeline under total check failure -/

lemma elaDelta_of_failed (o : TaskOutcome ElaRes) (h : elaFailed o = true) :
    elaDelta o = 0 := by
  cases o with
  | exn m => rfl
  | res r =>
      simp only [elaFailed, Bool.not_eq_eq_eq_not, Bool.not_true] at h
      simp [elaDelta, h]

lemma quantDelta_of_failed (o : TaskOutcome QuantRes) (h : quantFailed o = true) :
    quantDelta o = 0 := by
  cases o with
  | exn m => rfl
  | res r =>
      simp only [quantFailed, Bool.not_eq_eq_eq_not, Bool.not_true] at h
      simp [quantDelta, h]

lemma segDelta_of_failed (o : TaskOutcome SegRes) (h : segFailed o = true) :
    segDelta o = 0 := by
  cases o with
  | exn m => rfl
  | res r => simp [segFailed] at h

lemma truforDelta_of_failed (o : TaskOutcome TruforRes) (h : truforFailed o = true) :
    truforDelta o = 0 := by
  cases o with
  | exn m => rfl
  | res r => simp [truforFailed] at h

lemma truforDetail_errorTag (o : TaskOutcome TruforRes) (h : truforFailed o = true) :
    (truforDetailOf o).errorTag = true := by
  cases o with
  | exn m => rfl
  | res r => simp [truforFailed] at h

/-- C5: when all five checks fail, analyze_visual still returns a
well-formed report with score 0 whose five details entries are each
failure-tagged; the score is always the clamped sum of per-check
deltas, and each details entry and each delta is a function of its
own check's outcome alone, so one failing check never disturbs the
others' entries or contributions. -/
theorem C5_visual_all_fail (inp : VisualInput)
    (h1 : elaFailed inp.ela = true) (h2 : quantFailed inp.quant = true)
    (h3 : segFailed inp.seg = true) (h4 : noiseFailed inp.noise = true)
    (h5 : truforFailed inp.trufor = true) :
    ((analyze_visual inp).score = 0 ∧
      elaFailed (analyze_visual inp).ela = true ∧
      quantFailed (analyze_visual inp).quantization = true ∧
      segFailed (analyze_visual inp).semanticSegmentation = true ∧
      noiseFailed (analyze_visual inp).noiseAnalysis = true ∧
      (analyze_visual inp).trufor.errorTag = true) ∧
    (∀ v : VisualInput, (analyze_visual v).score =
      min (elaDelta v.ela + quantDelta v.quant + segDelta v.seg + truforDelta v.trufor) 1) ∧
    (∀ a b : VisualInput, a.ela = b.ela →
      (analyze_visual a).ela = (analyze_visual b).ela ∧ elaDelta a.ela = elaDelta b.ela) ∧
    (∀ a b : VisualInput, a.quant = b.quant →
      (analyze_visual a).quantization = (analyze_visual b).quantization ∧
        quantDelta a.quant = quantDelta b.quant) ∧
    (∀ a b : VisualInput, a.seg = b.seg →
      (analyze_visual a).semanticSegmentation = (analyze_visual b).semanticSegmentation ∧
        segDelta a.seg = segDelta b.seg) ∧
    (∀ a b : VisualInput, a.noise = b.noise →
      (analyze_visual a).noiseAnalysis = (analyze_visual b).noiseAnalysis) ∧
    (∀ a b : VisualInput, a.trufor = b.trufor →
      (analyze_visual a).trufor = (analyze_visual b).trufor ∧
        truforDelta a.trufor = truforDelta b.trufor) := by
  refine ⟨⟨?_, h1, h2, h3, h4, truforDetail_errorTag inp.trufor h5⟩, ?_, ?_, ?_, ?_, ?_, ?_⟩
  · show min (elaDelta inp.ela + quantDelta inp.quant + segDelta inp.seg +
      truforDelta inp.trufor) 1 = 0
    rw [elaDelta_of_failed inp.ela h1, quantDelta_of_failed inp.quant h2,
      segDelta_of_failed inp.seg h3, truforDelta_of_failed inp.trufor h5]
    norm_num
  · intro v; rfl
  · intro a b h; exact ⟨h, congrArg elaDelta h⟩
  · intro a b h; exact ⟨h, congrArg quantDelta h⟩
  · intro a b h; exact ⟨h, congrArg segDelta h⟩
  · intro a b h; exact h
  · intro a b h; exact ⟨congrArg truforDetailOf h, congrArg truforDelta h⟩

/-- A visual input whose five checks all fail, mixing task-level
exceptions with checks that return their own error payloads. -/
def allFailVisual : VisualInput :=
  { ela := TaskOutcome.exn "cv2 read failure"
    quant := TaskOutcome.res { ok := false, suspicious := false }
    seg := TaskOutcome.exn "model load failure"
    noise := TaskOutcome.res { ok := false }
    trufor := TaskOutcome.exn "weights missing" }

/-- Witness for C5 at the all-failing visual input. -/
theorem C5_visual_all_fail_witness :
    elaFailed allFailVisual.ela = true ∧ (analyze_visual allFailVisual).score = 0 :=
  ⟨by decide, (C5_visual_all_fail allFailVisual (by decide) (by decide) (by decide)
    (by decide) (by decide)).1.1⟩

/-! ### C9: heatmap overlay persistence -/

/-- A visual input whose trust check returns a heatmap but whose
overlay write fails. -/
def c9SaveFail : VisualInput :=
  { ela := TaskOutcome.exn "e1", quant := TaskOutcome.exn "e2", seg := TaskOutcome.exn "e3"
    noise := TaskOutcome.exn "e4"
    trufor := TaskOutcome.res { hasHeatmap := true, saveOk := false, trustScore := some 1 } }

/-- C9 counterexample: when persisting the overlay fails, the raw
heatmap array stays in the trufor details entry and no overlay path
is recorded, against the claim that this holds in every case where a
heatmap was returned. -/
theorem C9_counterexample :
    (analyze_visual c9SaveFail).trufor.hasRaw = true ∧
      (analyze_visual c9SaveFail).trufor.heatmapPath = false := by
  decide

/-- C9 amended: when the trust check returns a heatmap, the report
carries the overlay path and drops the raw arrays exactly when
persisting succeeds; a failed write is caught but leaves the raw
arrays in the payload with no path. -/
theorem C9_heatmap_persistence (inp : VisualInput) (r : TruforRes)
    (h : inp.trufor = TaskOutcome.res r) (hh : r.hasHeatmap = true) :
    (analyze_visual inp).trufor.heatmapPath = r.saveOk ∧
      (analyze_visual inp).trufor.hasRaw = !r.saveOk ∧
      (analyze_visual inp).trufor.errorTag = false := by
  have hd : (analyze_visual inp).trufor = truforDetailOf (TaskOutcome.res r) := by
    show truforDetailOf inp.trufor = truforDetailOf (TaskOutcome.res r)
    rw [h]
  rw [hd]
  simp [truforDetailOf, hh]

/-- A visual input whose trust check returns a heatmap and whose
overlay write succeeds. -/
def c9SaveOk : VisualInput :=
  { ela := TaskOutcome.exn "e1", quant := TaskOutcome.exn "e2", seg := TaskOutcome.exn "e3"
    noise := TaskOutcome.exn "e4"
    trufor := TaskOutcome.res { hasHeatmap := true, saveOk := true, trustScore := some (1/4) } }

/-- Witness for the amended C9 at a successful overlay write. -/
theorem C9_heatmap_persistence_witness :
    (analyze_visual c9SaveOk).trufor.heatmapPath = true ∧
      (analyze_visual c9SaveOk).trufor.hasRaw = false := by
  have h := C9_heatmap_persistence c9SaveOk
    { hasHeatmap := true, saveOk := true, trustScore := some (1/4) } rfl rfl
  exact ⟨h.1, by rw [h.2.1]; rfl⟩

/-! ### C1 and C6: the fusion stage -/

/-- The running minimum of f over a list, seeded at init, written
with the same strict-compare update the fusion loop uses. -/
def runMin (f : VisDetails → ℚ) (l : List VisDetails) (init : ℚ) : ℚ :=
  l.foldl (fun a d => if f d < a then f d else a) init

lemma fusionTerms_fold_eq (l : List VisDetails) (a b : ℚ) :
    l.foldl (fun acc d =>
      let sv := extract_visual_scores d
      (if sv.1 < acc.1 then sv.1 else acc.1, if sv.2 < acc.2 then sv.2 else acc.2)) (a, b)
    = (runMin perImageSeg l a, runMin perImageStats l b) := by
  induction l generalizing a b with
  | nil => rfl
  | cons d t ih =>
      simp only [List.foldl_cons, runMin, perImageSeg, perImageStats]
      exact ih _ _

lemma fusionTerms_of_images (pt : PipelineType) (rep : FusionReport)
    (hpt : pt ≠ PipelineType.visual) (hne : rep.analyzedImages ≠ []) :
    fusionTerms pt rep =
      (runMin perImageSeg rep.analyzedImages 100,
       runMin perImageStats rep.analyzedImages 100, true) := by
  rcases hl : rep.analyzedImages with _ | ⟨d, t⟩
  · exact absurd hl hne
  · simp only [fusionTerms, if_neg hpt, hl]
    rw [fusionTerms_fold_eq]

lemma runMin_cons (f : VisDetails → ℚ) (e : VisDetails) (t : List VisDetails) (init : ℚ) :
    runMin f (e :: t) init = runMin f t (if f e < init then f e else init) := rfl

lemma runMin_le_init (f : VisDetails → ℚ) (l : List VisDetails) :
    ∀ init : ℚ, runMin f l init ≤ init := by
  induction l with
  | nil => intro init; exact le_refl init
  | cons e t ih =>
      intro init
      rw [runMin_cons]
      refine le_trans (ih _) ?_
      split_ifs with h
      · linarith
      · exact le_refl init

lemma runMin_le_mem (f : VisDetails → ℚ) (l : List VisDetails) :
    ∀ (init : ℚ) (d : VisDetails), d ∈ l → runMin f l init ≤ f d := by
  induction l with
  | nil => intro init d hd; cases hd
  | cons e t ih =>
      intro init d hd
      rcases List.mem_cons.mp hd with rfl | hd
      · rw [runMin_cons]
        refine le_trans (runMin_le_init f t _) ?_
        split_ifs with h
        · exact le_refl _
        · linarith
      · rw [runMin_cons]
        exact ih _ d hd

lemma runMin_eq_init_or_mem (f : VisDetails → ℚ) (l : List VisDetails) :
    ∀ init : ℚ, runMin f l init = init ∨ ∃ d ∈ l, runMin f l init = f d := by
  induction l with
  | nil => intro init; exact Or.inl rfl
  | cons e t ih =>
      intro init
      rw [runMin_cons]
      rcases ih (if f e < init then f e else init) with h | ⟨d, hd, h⟩
      · by_cases he : f e < init
        · rw [if_pos he] at h ⊢
          exact Or.inr ⟨e, List.mem_cons_self e t, h⟩
        · rw [if_neg he] at h ⊢
          exact Or.inl h
      · exact Or.inr ⟨d, List.mem_cons_of_mem e hd, h⟩

lemma runMin_attained (f : VisDetails → ℚ) (l : List VisDetails)
    (hne : l ≠ []) (hb : ∀ d ∈ l, f d ≤ 100) :
    ∃ d ∈ l, runMin f l 100 = f d := by
  rcases runMin_eq_init_or_mem f l 100 with h | h
  · rcases l with _ | ⟨d0, t⟩
    · exact absurd rfl hne
    · refine ⟨d0, List.mem_cons_self d0 t, ?_⟩
      have h1 := runMin_le_mem f (d0 :: t) 100 d0 (List.mem_cons_self d0 t)
      have h2 := hb d0 (List.mem_cons_self d0 t)
      rw [h] at h1 ⊢
      linarith
  · exact h

/-- The fusion report of a single visual-pipeline image whose
segmentation confidence is 0.1 and whose maximal resave difference is
20, producing segmentation authenticity 90 and statistical
authenticity 70. -/
def c1Rep : FusionReport :=
  { score := 0, rootDetails := { segConf := some (1/10), elaMax := 20 }, analyzedImages := [] }

/-- C1: every fusion input is scored by the branch-dependent weighted
formula: with a visual component, round of AI times 0.4 plus the
segmentation term times 0.4 plus the statistics term times 0.2,
otherwise round of AI times 0.6 plus the metadata authenticity times
0.4 with metadata authenticity the clamped complement of the
structural risk; and the 80/90/70 visual example fuses to 82. -/
theorem C1_fusion_formula :
    (∀ (pt : PipelineType) (ai : ℚ) (rep : FusionReport),
      fuse pt ai rep =
        if pt = PipelineType.visual ∨ rep.analyzedImages ≠ [] then
          pyRound (ai * (2/5) + (fusionTerms pt rep).1 * (2/5) +
            (fusionTerms pt rep).2.1 * (1/5))
        else pyRound (ai * (3/5) + metadataAuth rep.score * (2/5))) ∧
    fuse PipelineType.visual 80 c1Rep = 82 := by
  constructor
  · intro pt ai rep
    by_cases hv : pt = PipelineType.visual
    · subst hv
      simp [fuse, fusionTerms]
    · rcases himg : rep.analyzedImages with _ | ⟨d, t⟩
      · simp [fuse, fusionTerms, hv, himg]
      · simp [fuse, fusionTerms, hv, himg]
  · norm_num [fuse, fusionTerms, extract_visual_scores, pyRound, c1Rep]

/-- The structural fusion report with two analyzed embedded images
whose segmentation authenticities are 90 and 40. -/
def c6Rep : FusionReport :=
  { score := 0, rootDetails := { segConf := none, elaMax := 0 }
    analyzedImages := [{ segConf := some (1/10), elaMax := 0 }, { segConf := some (3/5), elaMax := 0 }] }

/-- C6: over a non-visual pipeline with at least one analyzed image
whose per-image values sit in the 0-100 range, the fused segmentation
and statistics terms are each a lower bound of, and attained by, the
per-image values: they are the minimum across images, not the
average; the 90/40 pair fuses to segmentation term 40. -/
theorem C6_worst_case_aggregation (pt : PipelineType) (rep : FusionReport)
    (hpt : pt ≠ PipelineType.visual) (hne : rep.analyzedImages ≠ [])
    (hb : ∀ d ∈ rep.analyzedImages, perImageSeg d ≤ 100 ∧ perImageStats d ≤ 100) :
    (fusionTerms pt rep).2.2 = true ∧
      (∀ d ∈ rep.analyzedImages,
        (fusionTerms pt rep).1 ≤ perImageSeg d ∧
          (fusionTerms pt rep).2.1 ≤ perImageStats d) ∧
      (∃ d ∈ rep.analyzedImages, (fusionTerms pt rep).1 = perImageSeg d) ∧
      (∃ d ∈ rep.analyzedImages, (fusionTerms pt rep).2.1 = perImageStats d) ∧
      (fusionTerms PipelineType.structural c6Rep).1 = 40 := by
  rw [fusionTerms_of_images pt rep hpt hne]
  refine ⟨rfl, ?_, ?_, ?_, ?_⟩
  · intro d hd
    exact ⟨runMin_le_mem perImageSeg rep.analyzedImages 100 d hd,
      runMin_le_mem perImageStats rep.analyzedImages 100 d hd⟩
  · exact runMin_attained perImageSeg rep.analyzedImages hne (fun d hd => (hb d hd).1)
  · exact runMin_attained perImageStats rep.analyzedImages hne (fun d hd => (hb d hd).2)
  · rw [fusionTerms_of_images PipelineType.structural c6Rep (by decide) (by simp [c6Rep])]
    norm_num [c6Rep, runMin, perImageSeg, extract_visual_scores]

/-- Witness for C6 at the 90/40 two-image report. -/
theorem C6_worst_case_aggregation_witness :
    c6Rep.analyzedImages ≠ [] ∧ (fusionTerms PipelineType.structural c6Rep).1 = 40 :=
  ⟨by simp [c6Rep], (C6_worst_case_aggregation PipelineType.structural c6Rep (by decide)
    (by simp [c6Rep])
    (by
      intro d hd
      simp only [c6Rep, List.mem_cons, List.mem_singleton] at hd
      rcases hd with rfl | rfl | h
      · constructor <;> norm_num [perImageSeg, perImageStats, extract_visual_scores]
      · constructor <;> norm_num [perImageSeg, perImageStats, extract_visual_scores]
      · cases h)).2.2.2.2⟩

end VeriDoc
